import Mathlib

/-!
Verification of the Sersic rendering core of pyprofit (with its bundled
libprofit C sources) against its natural-language specification.

Doubles are modelled as real numbers, C `pow` as `Real.rpow`, unsigned
integers as `ℕ`, and the GSL special-function pointers of the profile
struct as optional real functions.  Fallible initialization is modelled
with `Except String`.
-/

/-- The `profit_sersic_profile` struct of the bundled libprofit `sersic.h`:
profile parameters, the three special-function pointers (`_qgamma`,
`_gammafn`, `_beta`, present or `NULL`), and the derived constants filled
in by `profit_init_sersic` (`_bn`, `_ie`, `_cos_ang`, `_sin_ang`). -/
structure SersicProfile where
  xcen : ℝ
  ycen : ℝ
  mag : ℝ
  re : ℝ
  nser : ℝ
  box : ℝ
  ang : ℝ
  axrat : ℝ
  rough : Bool
  acc : ℝ
  re_switch : ℝ
  resolution : ℕ
  max_recursions : ℕ
  qgamma : Option (ℝ → ℝ → ℝ → ℝ)
  gammafn : Option (ℝ → ℝ)
  beta : Option (ℝ → ℝ → ℝ)
  bn : ℝ
  ie : ℝ
  cos_ang : ℝ
  sin_ang : ℝ

/-- The sane defaults set by `profit_create_sersic` (sersic.c); the derived
constants, left uninitialized by `malloc`, are modelled as 0, and the three
function pointers start out `NULL`. -/
noncomputable def profit_create_sersic : SersicProfile :=
  { xcen := 0, ycen := 0, mag := 15, re := 1, nser := 1, box := 0, ang := 0
    axrat := 1, rough := false, acc := 0.1, re_switch := 1
    resolution := 9, max_recursions := 2
    qgamma := none, gammafn := none, beta := none
    bn := 0, ie := 0, cos_ang := 0, sin_ang := 0 }

/-- Truncation toward zero, as C `(double)` truncation used by `fmod`. -/
noncomputable def ctrunc (r : ℝ) : ℝ :=
  if 0 ≤ r then (⌊r⌋ : ℤ) else (⌈r⌉ : ℤ)

/-- C `fmod x y = x - trunc(x / y) * y`. -/
noncomputable def fmod (x y : ℝ) : ℝ :=
  x - ctrunc (x / y) * y

/-- `profit_init_sersic` (sersic.c): fails when one of the three
special-function pointers is missing; otherwise computes the shape
constant `_bn`, the intensity scale `_ie` and the rotation coefficients
`_cos_ang`, `_sin_ang`, and stores them in the profile. -/
noncomputable def profit_init_sersic (magzero : ℝ) (p : SersicProfile) :
    Except String SersicProfile :=
  match p.qgamma with
  | none => .error "Missing qgamma function on sersic profile"
  | some qgamma =>
    match p.gammafn with
    | none => .error "Missing gamma function on sersic profile"
    | some gammafn =>
      match p.beta with
      | none => .error "Missing beta function on sersic profile"
      | some beta =>
        let nser := p.nser
        let re := p.re
        let axrat := p.axrat
        let mag := p.mag
        let box := p.box + 2
        let bn := qgamma 0.5 (2 * nser) 1
        let Rbox := Real.pi * box / (4 * beta (1 / box) (1 + 1 / box))
        let gamma := gammafn (2 * nser)
        let lumtot := re ^ (2 : ℝ) * 2 * Real.pi * nser * gamma * axrat / Rbox *
          Real.exp bn / bn ^ (2 * nser)
        let ie := (10 : ℝ) ^ ((-0.4) * (mag - magzero)) / lumtot
        let angrad := fmod p.ang 360 * Real.pi / 180
        let cos_ang := Real.cos angrad
        let sin_ang := Real.sqrt (1 - cos_ang * cos_ang) *
          (if angrad < Real.pi then -1 else 1)
        .ok { p with bn := bn, ie := ie, cos_ang := cos_ang, sin_ang := sin_ang }

/-- The radius used by `_sersic_for_xy_r` (sersic.c): the generalized
boxy radius when `box` is non-zero, the Euclidean radius when not reusing
the caller's value, the caller's `r` otherwise. -/
noncomputable def sersic_radius (sp : SersicProfile) (x y r : ℝ) (reuse_r : Bool) : ℝ :=
  if sp.box ≠ 0 then
    (|x| ^ (sp.box + 2) + |y| ^ (sp.box + 2)) ^ (1 / (sp.box + 2))
  else if reuse_r then r
  else Real.sqrt (x * x + y * y)

/-- `_sersic_for_xy_r` (sersic.c): the un-normalized Sersic intensity
`exp(-bn * ((r / re)^(1 / nser) - 1))` at the radius of `sersic_radius`. -/
noncomputable def sersic_for_xy_r (sp : SersicProfile) (x y r : ℝ) (reuse_r : Bool) : ℝ :=
  Real.exp (-sp.bn * ((sersic_radius sp x y r reuse_r / sp.re) ^ (1 / sp.nser) - 1))

/-- `_sersic_translate_rotate` (sersic.c): translate by the profile
center, rotate with the stored coefficients, compress the second component
by the axis ratio. -/
noncomputable def sersic_translate_rotate (sp : SersicProfile) (x y : ℝ) : ℝ × ℝ :=
  ((x - sp.xcen) * sp.cos_ang + (y - sp.ycen) * sp.sin_ang,
   ((x - sp.xcen) * sp.sin_ang - (y - sp.ycen) * sp.cos_ang) / sp.axrat)

/-- The accuracy test of `_sersic_sumpix` (sersic.c): the relative
difference between the intensity at a point offset from the sub-cell
center by one full sub-bin (`ybin / axrat`) further from the profile
center along the minor axis and the intensity at the sub-cell center
exceeds the `acc` threshold.  (`subval` of the source is recomputed
here; its value is identical.) -/
noncomputable def sersic_refine (sp : SersicProfile) (x_ser y_ser ybin : ℝ) : Prop :=
  |sersic_for_xy_r sp x_ser (|y_ser| + |ybin / sp.axrat|) 0 false /
    sersic_for_xy_r sp x_ser y_ser 0 false - 1| > sp.acc

/-- Follows the claim's words, not the source: the same accuracy test but
with the test point offset by one HALF sub-bin further from the profile
center along the minor axis.  Kept for comparison with `sersic_refine`. -/
noncomputable def sersic_refine_claim (sp : SersicProfile) (x_ser y_ser ybin : ℝ) : Prop :=
  |sersic_for_xy_r sp x_ser (|y_ser| + |ybin / sp.axrat| / 2) 0 false /
    sersic_for_xy_r sp x_ser y_ser 0 false - 1| > sp.acc

noncomputable instance (sp : SersicProfile) (x_ser y_ser ybin : ℝ) :
    Decidable (sersic_refine sp x_ser y_ser ybin) := by
  unfold sersic_refine; infer_instance

noncomputable instance (sp : SersicProfile) (x_ser y_ser ybin : ℝ) :
    Decidable (sersic_refine_claim sp x_ser y_ser ybin) := by
  unfold sersic_refine_claim; infer_instance

/-- Center of sub-cell `k` of the partition of `[a, a + resolution * bin]`
into bins of width `bin`: the loop of `_sersic_sumpix` adds half a bin
before and after using each midpoint. -/
noncomputable def subcellCenter (a bin : ℝ) (k : ℕ) : ℝ :=
  a + (2 * (k : ℝ) + 1) * (bin / 2)

/-- The point estimate of a sub-cell in `_sersic_sumpix`: the intensity at
the transformed sub-cell center. -/
noncomputable def sersic_cellval (sp : SersicProfile) (x y : ℝ) : ℝ :=
  sersic_for_xy_r sp (sersic_translate_rotate sp x y).1
    (sersic_translate_rotate sp x y).2 0 false

/-- `_sersic_sumpix` (sersic.c): partition `(x0,x1) × (y0,y1)` into a
`resolution × resolution` sub-grid, estimate each sub-cell by its center
intensity, recursively subdivide a sub-cell (one level deeper) when
`resolution > 1`, the recursion level is below `max_recursions` and the
accuracy test fires, and return the average of the sub-cell values. -/
noncomputable def sersic_sumpix (sp : SersicProfile) (x0 x1 y0 y1 : ℝ)
    (recur_level : ℕ) : ℝ :=
  (∑ i ∈ Finset.range sp.resolution, ∑ j ∈ Finset.range sp.resolution,
    if h : 1 < sp.resolution ∧ recur_level < sp.max_recursions then
      if sersic_refine sp
          (sersic_translate_rotate sp
            (subcellCenter x0 ((x1 - x0) / sp.resolution) i)
            (subcellCenter y0 ((y1 - y0) / sp.resolution) j)).1
          (sersic_translate_rotate sp
            (subcellCenter x0 ((x1 - x0) / sp.resolution) i)
            (subcellCenter y0 ((y1 - y0) / sp.resolution) j)).2
          ((y1 - y0) / sp.resolution) then
        sersic_sumpix sp
          (subcellCenter x0 ((x1 - x0) / sp.resolution) i - (x1 - x0) / sp.resolution / 2)
          (subcellCenter x0 ((x1 - x0) / sp.resolution) i + (x1 - x0) / sp.resolution / 2)
          (subcellCenter y0 ((y1 - y0) / sp.resolution) j - (y1 - y0) / sp.resolution / 2)
          (subcellCenter y0 ((y1 - y0) / sp.resolution) j + (y1 - y0) / sp.resolution / 2)
          (recur_level + 1)
      else
        sersic_cellval sp (subcellCenter x0 ((x1 - x0) / sp.resolution) i)
          (subcellCenter y0 ((y1 - y0) / sp.resolution) j)
    else
      sersic_cellval sp (subcellCenter x0 ((x1 - x0) / sp.resolution) i)
        (subcellCenter y0 ((y1 - y0) / sp.resolution) j)) /
  ((sp.resolution : ℝ) * (sp.resolution : ℝ))
termination_by sp.max_recursions - recur_level
decreasing_by exact Nat.sub_lt_sub_left h.2 (Nat.lt_succ_self recur_level)

/-- Depth-indexed variant of `_sersic_sumpix`: identical, except that the
recursion consumes an explicit fuel and depth 0 always accepts the point
estimates.  Used to show the recursion depth is bounded. -/
noncomputable def sersic_sumpix_depth (sp : SersicProfile) :
    ℕ → ℝ → ℝ → ℝ → ℝ → ℕ → ℝ
  | 0, x0, x1, y0, y1, _ =>
    (∑ i ∈ Finset.range sp.resolution, ∑ j ∈ Finset.range sp.resolution,
      sersic_cellval sp (subcellCenter x0 ((x1 - x0) / sp.resolution) i)
        (subcellCenter y0 ((y1 - y0) / sp.resolution) j)) /
    ((sp.resolution : ℝ) * (sp.resolution : ℝ))
  | fuel + 1, x0, x1, y0, y1, recur_level =>
    (∑ i ∈ Finset.range sp.resolution, ∑ j ∈ Finset.range sp.resolution,
      if 1 < sp.resolution ∧ recur_level < sp.max_recursions then
        if sersic_refine sp
            (sersic_translate_rotate sp
              (subcellCenter x0 ((x1 - x0) / sp.resolution) i)
              (subcellCenter y0 ((y1 - y0) / sp.resolution) j)).1
            (sersic_translate_rotate sp
              (subcellCenter x0 ((x1 - x0) / sp.resolution) i)
              (subcellCenter y0 ((y1 - y0) / sp.resolution) j)).2
            ((y1 - y0) / sp.resolution) then
          sersic_sumpix_depth sp fuel
            (subcellCenter x0 ((x1 - x0) / sp.resolution) i - (x1 - x0) / sp.resolution / 2)
            (subcellCenter x0 ((x1 - x0) / sp.resolution) i + (x1 - x0) / sp.resolution / 2)
            (subcellCenter y0 ((y1 - y0) / sp.resolution) j - (y1 - y0) / sp.resolution / 2)
            (subcellCenter y0 ((y1 - y0) / sp.resolution) j + (y1 - y0) / sp.resolution / 2)
            (recur_level + 1)
        else
          sersic_cellval sp (subcellCenter x0 ((x1 - x0) / sp.resolution) i)
            (subcellCenter y0 ((y1 - y0) / sp.resolution) j)
      else
        sersic_cellval sp (subcellCenter x0 ((x1 - x0) / sp.resolution) i)
          (subcellCenter y0 ((y1 - y0) / sp.resolution) j)) /
    ((sp.resolution : ℝ) * (sp.resolution : ℝ))

/-- The fields of the `profit_model` struct that the Sersic evaluation
loop reads: image dimensions, bin sizes and the magnitude zero-point. -/
structure ProfitModel where
  width : ℕ
  height : ℕ
  xbin : ℝ
  ybin : ℝ
  magzero : ℝ

/-- The `pixel_val` computed by `profit_make_sersic` (sersic.c) for pixel
`(i, j)`: a single center evaluation on the fast path (`rough`, small
`nser`, or center radius beyond `re * re_switch`), adaptive subsampling
otherwise. -/
noncomputable def profit_make_sersic_pixel_val (sp : SersicProfile) (m : ProfitModel)
    (i j : ℕ) : ℝ :=
  if sp.rough = true ∨ sp.nser < 0.5 ∨
      Real.sqrt ((sersic_translate_rotate sp ((2 * (i : ℝ) + 1) * (m.xbin / 2))
          ((2 * (j : ℝ) + 1) * (m.ybin / 2))).1 *
        (sersic_translate_rotate sp ((2 * (i : ℝ) + 1) * (m.xbin / 2))
          ((2 * (j : ℝ) + 1) * (m.ybin / 2))).1 +
        (sersic_translate_rotate sp ((2 * (i : ℝ) + 1) * (m.xbin / 2))
          ((2 * (j : ℝ) + 1) * (m.ybin / 2))).2 *
        (sersic_translate_rotate sp ((2 * (i : ℝ) + 1) * (m.xbin / 2))
          ((2 * (j : ℝ) + 1) * (m.ybin / 2))).2) / sp.re > sp.re_switch then
    sersic_for_xy_r sp
      (sersic_translate_rotate sp ((2 * (i : ℝ) + 1) * (m.xbin / 2))
        ((2 * (j : ℝ) + 1) * (m.ybin / 2))).1
      (sersic_translate_rotate sp ((2 * (i : ℝ) + 1) * (m.xbin / 2))
        ((2 * (j : ℝ) + 1) * (m.ybin / 2))).2
      (Real.sqrt ((sersic_translate_rotate sp ((2 * (i : ℝ) + 1) * (m.xbin / 2))
          ((2 * (j : ℝ) + 1) * (m.ybin / 2))).1 *
        (sersic_translate_rotate sp ((2 * (i : ℝ) + 1) * (m.xbin / 2))
          ((2 * (j : ℝ) + 1) * (m.ybin / 2))).1 +
        (sersic_translate_rotate sp ((2 * (i : ℝ) + 1) * (m.xbin / 2))
          ((2 * (j : ℝ) + 1) * (m.ybin / 2))).2 *
        (sersic_translate_rotate sp ((2 * (i : ℝ) + 1) * (m.xbin / 2))
          ((2 * (j : ℝ) + 1) * (m.ybin / 2))).2)) true
  else
    sersic_sumpix sp
      ((2 * (i : ℝ) + 1) * (m.xbin / 2) - m.xbin / 2)
      ((2 * (i : ℝ) + 1) * (m.xbin / 2) + m.xbin / 2)
      ((2 * (j : ℝ) + 1) * (m.ybin / 2) - m.ybin / 2)
      ((2 * (j : ℝ) + 1) * (m.ybin / 2) + m.ybin / 2)
      0

/-- The value `profit_make_sersic` (sersic.c) writes to pixel `(i, j)`:
`bin_area * _ie * pixel_val`. -/
noncomputable def profit_make_sersic (sp : SersicProfile) (m : ProfitModel)
    (i j : ℕ) : ℝ :=
  m.xbin * m.ybin * sp.ie * profit_make_sersic_pixel_val sp m i j

/-- Whether an `Except` result is a success. -/
def exceptOk {ε α : Type} : Except ε α → Bool
  | .ok _ => true
  | .error _ => false

/-- The initialized profile when `profit_init_sersic` succeeds, the
profile unchanged when it fails.  Convenience accessor for concrete
statements. -/
noncomputable def initOr (magzero : ℝ) (p : SersicProfile) : SersicProfile :=
  match profit_init_sersic magzero p with
  | .ok p' => p'
  | .error _ => p

/-- Modelled from the spec: the model orchestration (`profit_make_model` /
`Model::evaluate` of the bundled libprofit) is not among these sources —
only its callers are.  Per spec section 4.5 and section 7(2), every
profile is initialized once; a profile whose initialization fails is
dropped with a warning and rendering continues, the image being the
pixel-wise sum of the images of the remaining profiles.  Returns the
image together with the number of warnings emitted. -/
noncomputable def model_evaluate (m : ProfitModel) (ps : List SersicProfile) :
    (ℕ → ℕ → ℝ) × ℕ :=
  (fun i j =>
    ((ps.filterMap fun p => (profit_init_sersic m.magzero p).toOption).map
      fun p => profit_make_sersic p m i j).sum,
   (ps.filter fun p => !exceptOk (profit_init_sersic m.magzero p)).length)

/-- Modelled from the spec: the dimension validation of `Model::evaluate`
(libprofit) is not among these sources.  Per spec sections 4.5, 6 and
7(1), width and height are mandatory positive integers and a zero
dimension is a fatal configuration error that aborts the render before
any profile evaluation; otherwise the model of `model_evaluate` runs. -/
noncomputable def model_evaluate_checked (width height : ℤ) (scale_x scale_y magzero : ℝ)
    (ps : List SersicProfile) : Except String (ℕ → ℕ → ℝ) :=
  if width = 0 ∨ height = 0 then
    .error "invalid model dimensions"
  else
    .ok (model_evaluate
      { width := width.toNat, height := height.toNat,
        xbin := scale_x, ybin := scale_y, magzero := magzero } ps).1

/-- The items of the Python model dictionary that `pyprofit_make_model`
(pyprofit.cpp) reads and that matter to configuration validation; a
missing dictionary key is `none`. -/
structure PyModelDict where
  width : Option ℤ
  height : Option ℤ
  profiles : Option (List SersicProfile)
  calcmask : Option (List (List Bool))
  scale_x : Option ℝ
  scale_y : Option ℝ
  magzero : Option ℝ

/-- `_read_boolean_matrix` (pyprofit.cpp): `none` when no matrix is given;
for a given matrix, the width is the first row's length and every later
row must have the same length, otherwise the function returns `NULL` (and
the caller proceeds as if no mask was given).  An empty matrix also
returns `NULL`, since no row ever allocates the array.  Only the
dimensions matter to the callers modelled here. -/
def read_boolean_matrix (matrix : Option (List (List Bool))) : Option (ℕ × ℕ) :=
  match matrix with
  | none => none
  | some [] => none
  | some (row0 :: rest) =>
    if rest.all fun row => row.length = row0.length then
      some (row0.length, rest.length + 1)
    else
      none

/-- `pyprofit_make_model` (pyprofit.cpp): width, height and profiles are
mandatory; a present mask whose dimensions differ from the image is a
fatal configuration error; otherwise the model is built (scales default
to 1, magzero to 0) and evaluated. -/
noncomputable def pyprofit_make_model (d : PyModelDict) : Except String (ℕ → ℕ → ℝ) :=
  match d.width with
  | none => .error "Missing mandatory width item"
  | some width =>
    match d.height with
    | none => .error "Missing mandatory height item"
    | some height =>
      match d.profiles with
      | none => .error "Missing mandatory profiles item"
      | some ps =>
        match read_boolean_matrix d.calcmask with
        | some (mask_w, mask_h) =>
          if (mask_w : ℤ) ≠ width ∨ (mask_h : ℤ) ≠ height then
            .error "calcmask must have same dimensions of image"
          else
            model_evaluate_checked width height (d.scale_x.getD 1) (d.scale_y.getD 1)
              (d.magzero.getD 0) ps
        | none =>
          model_evaluate_checked width height (d.scale_x.getD 1) (d.scale_y.getD 1)
            (d.magzero.getD 0) ps

/-- A Sersic profile with all three special functions plugged in (the two
C bindings always plug in the GSL functions; constant stand-ins suffice
for concrete statements). -/
noncomputable def spFull : SersicProfile :=
  { profit_create_sersic with
    qgamma := some fun _ _ _ => 1
    gammafn := some fun _ => 1
    beta := some fun _ _ => 1 }

/-- Concrete profile rotated by 90 degrees, used for the rotation
counterexample. -/
noncomputable def spAng90 : SersicProfile :=
  { spFull with ang := 90 }

/-- Concrete profile with `_bn = log 2` and `acc = 0.5`, used for the
accuracy-test counterexample. -/
noncomputable def spAcc : SersicProfile :=
  { profit_create_sersic with bn := Real.log 2, acc := 0.5 }

/-- Concrete profile with a degenerate axis ratio, used to show that
initialization does not validate `axrat`. -/
noncomputable def spAxratZero : SersicProfile :=
  { spFull with axrat := 0 }

/-- A concrete model configuration for witness statements. -/
noncomputable def m3 : ProfitModel :=
  { width := 3, height := 3, xbin := 1, ybin := 1, magzero := 0 }

/-- Concrete profile with positive boxiness, for witness statements. -/
noncomputable def spBoxy : SersicProfile :=
  { profit_create_sersic with box := 1 }

/-- Concrete profile in rough mode, for fast-path witnesses. -/
noncomputable def spRough : SersicProfile :=
  { profit_create_sersic with rough := true }

/-- C1: with the gamma, beta and inverse-regularized-gamma dependencies
present, `profit_init_sersic` computes `_bn = Qinv(0.5, 2 nser)` and
`_ie = 10^(-0.4 (mag - magzero))` divided by the total luminosity
`re^2 * 2 pi * nser * Gamma(2 nser) * axrat * exp(bn) / bn^(2 nser)`
divided by the boxy correction `Rbox = pi (box+2) / (4 B(1/(box+2),
1 + 1/(box+2)))`. -/
theorem profit_init_sersic_normalization (magzero : ℝ) (p p' : SersicProfile)
    (q : ℝ → ℝ → ℝ → ℝ) (g : ℝ → ℝ) (b : ℝ → ℝ → ℝ)
    (hq : p.qgamma = some q) (hg : p.gammafn = some g) (hb : p.beta = some b)
    (h : profit_init_sersic magzero p = .ok p') :
    p'.bn = q 0.5 (2 * p.nser) 1 ∧
    p'.ie = (10 : ℝ) ^ ((-0.4) * (p.mag - magzero)) /
      (p.re ^ (2 : ℝ) * 2 * Real.pi * p.nser * g (2 * p.nser) * p.axrat *
        Real.exp (q 0.5 (2 * p.nser) 1) / q 0.5 (2 * p.nser) 1 ^ (2 * p.nser) /
        (Real.pi * (p.box + 2) / (4 * b (1 / (p.box + 2)) (1 + 1 / (p.box + 2))))) := by
  simp only [profit_init_sersic, hq, hg, hb] at h
  injection h with h
  subst h
  refine ⟨rfl, ?_⟩
  simp only
  congr 1
  generalize q 0.5 (2 * p.nser) 1 ^ (2 * p.nser) = B
  generalize Real.pi * (p.box + 2) / (4 * b (1 / (p.box + 2)) (1 + 1 / (p.box + 2))) = R
  ring

/-- Witness for C1: the fully concrete default profile with constant
stand-ins for the three special functions. -/
theorem profit_init_sersic_normalization_witness :
    (initOr 0 spFull).bn = 1 ∧
    (initOr 0 spFull).ie = (10 : ℝ) ^ ((-0.4) * (spFull.mag - 0)) /
      (spFull.re ^ (2 : ℝ) * 2 * Real.pi * spFull.nser * 1 * spFull.axrat *
        Real.exp 1 / (1 : ℝ) ^ (2 * spFull.nser) /
        (Real.pi * (spFull.box + 2) / (4 * 1))) :=
  profit_init_sersic_normalization 0 spFull (initOr 0 spFull) _ _ _ rfl rfl rfl rfl

/-- C2: with boxiness greater than zero the radius of the intensity
function is the Lp-style norm `(|x|^p + |y|^p)^(1/p)`, `p = box + 2`;
with boxiness zero (and no reused radius) it is the Euclidean radius;
and at `p = 2` the Lp-style norm coincides with the Euclidean radius. -/
theorem sersic_radius_boxy (sp : SersicProfile) (x y r : ℝ) (reuse_r : Bool) :
    (0 < sp.box → sersic_radius sp x y r reuse_r =
      (|x| ^ (sp.box + 2) + |y| ^ (sp.box + 2)) ^ (1 / (sp.box + 2))) ∧
    (sp.box = 0 → sersic_radius sp x y r false = Real.sqrt (x * x + y * y)) ∧
    (|x| ^ (2 : ℝ) + |y| ^ (2 : ℝ)) ^ (1 / (2 : ℝ)) = Real.sqrt (x * x + y * y) := by
  refine ⟨fun hbox => ?_, fun hbox => ?_, ?_⟩
  · rw [sersic_radius, if_pos (ne_of_gt hbox)]
  · simp [sersic_radius, hbox]
  · rw [Real.sqrt_eq_rpow]
    congr 1
    rw [show ((2 : ℝ)) = ((2 : ℕ) : ℝ) from by norm_num, Real.rpow_natCast,
      Real.rpow_natCast, sq_abs, sq_abs]
    ring

/-- Witness for C2 at a concrete boxy profile and point. -/
theorem sersic_radius_boxy_witness :
    sersic_radius spBoxy 3 4 0 false =
      (|(3 : ℝ)| ^ (spBoxy.box + 2) + |(4 : ℝ)| ^ (spBoxy.box + 2)) ^ (1 / (spBoxy.box + 2)) :=
  (sersic_radius_boxy spBoxy 3 4 0 false).1
    (by norm_num [spBoxy, profit_create_sersic])

/-- C3 (amended): the rotation coefficients computed by
`profit_init_sersic` are `_cos_ang = cos(theta)` and `_sin_ang =
-sin(theta)` — not `sin(theta)` — for `theta` the angle in degrees
reduced mod 360 and converted to radians, whenever `ang >= 0`; the
transform is therefore `x' = dx cos(theta) - dy sin(theta)` and
`y' = (-dx sin(theta) - dy cos(theta)) / axrat`. -/
theorem profit_init_sersic_rotation (magzero : ℝ) (p p' : SersicProfile)
    (q : ℝ → ℝ → ℝ → ℝ) (g : ℝ → ℝ) (b : ℝ → ℝ → ℝ) (x y : ℝ)
    (hq : p.qgamma = some q) (hg : p.gammafn = some g) (hb : p.beta = some b)
    (h : profit_init_sersic magzero p = .ok p') (hang : 0 ≤ p.ang) :
    p'.cos_ang = Real.cos (fmod p.ang 360 * Real.pi / 180) ∧
    p'.sin_ang = -Real.sin (fmod p.ang 360 * Real.pi / 180) ∧
    sersic_translate_rotate p' x y =
      ((x - p.xcen) * Real.cos (fmod p.ang 360 * Real.pi / 180) -
        (y - p.ycen) * Real.sin (fmod p.ang 360 * Real.pi / 180),
       (-(x - p.xcen) * Real.sin (fmod p.ang 360 * Real.pi / 180) -
        (y - p.ycen) * Real.cos (fmod p.ang 360 * Real.pi / 180)) / p.axrat) := by
  simp only [profit_init_sersic, hq, hg, hb] at h
  injection h with h
  subst h
  have h360 : (0 : ℝ) < 360 := by norm_num
  have hq360 : 0 ≤ p.ang / 360 := div_nonneg hang (le_of_lt h360)
  have hfm : fmod p.ang 360 = 360 * Int.fract (p.ang / 360) := by
    rw [fmod, ctrunc, if_pos hq360, Int.fract]
    field_simp
    ring
  have hfm0 : 0 ≤ fmod p.ang 360 := by
    rw [hfm]
    exact mul_nonneg (by norm_num) (Int.fract_nonneg _)
  have hfm1 : fmod p.ang 360 < 360 := by
    rw [hfm]
    nlinarith [Int.fract_lt_one (p.ang / 360)]
  have hπ := Real.pi_pos
  have hθ0 : 0 ≤ fmod p.ang 360 * Real.pi / 180 := by positivity
  have hθ2 : fmod p.ang 360 * Real.pi / 180 < 2 * Real.pi := by nlinarith
  have hsin : Real.sqrt (1 - Real.cos (fmod p.ang 360 * Real.pi / 180) *
      Real.cos (fmod p.ang 360 * Real.pi / 180)) *
      (if fmod p.ang 360 * Real.pi / 180 < Real.pi then -1 else 1) =
      -Real.sin (fmod p.ang 360 * Real.pi / 180) := by
    have hsq : 1 - Real.cos (fmod p.ang 360 * Real.pi / 180) *
        Real.cos (fmod p.ang 360 * Real.pi / 180) =
        Real.sin (fmod p.ang 360 * Real.pi / 180) ^ 2 := by
      linear_combination (-1 : ℝ) * Real.sin_sq_add_cos_sq (fmod p.ang 360 * Real.pi / 180)
    rw [hsq, Real.sqrt_sq_eq_abs]
    by_cases hlt : fmod p.ang 360 * Real.pi / 180 < Real.pi
    · rw [if_pos hlt,
        abs_of_nonneg (Real.sin_nonneg_of_nonneg_of_le_pi hθ0 (le_of_lt hlt))]
      ring
    · rw [if_neg hlt]
      push_neg at hlt
      have h2 : 0 ≤ Real.sin (fmod p.ang 360 * Real.pi / 180 - Real.pi) :=
        Real.sin_nonneg_of_nonneg_of_le_pi (by linarith) (by linarith)
      rw [Real.sin_sub_pi] at h2
      rw [abs_of_nonpos (by linarith)]
      ring
  refine ⟨rfl, hsin, ?_⟩
  simp only [sersic_translate_rotate, hsin]
  rw [Prod.mk.injEq]
  constructor <;> ring

/-- Witness for C3 at the concrete 90-degree profile and the point (5, 7). -/
theorem profit_init_sersic_rotation_witness :
    (initOr 0 spAng90).cos_ang = Real.cos (fmod spAng90.ang 360 * Real.pi / 180) ∧
    (initOr 0 spAng90).sin_ang = -Real.sin (fmod spAng90.ang 360 * Real.pi / 180) ∧
    sersic_translate_rotate (initOr 0 spAng90) 5 7 =
      ((5 - spAng90.xcen) * Real.cos (fmod spAng90.ang 360 * Real.pi / 180) -
        (7 - spAng90.ycen) * Real.sin (fmod spAng90.ang 360 * Real.pi / 180),
       (-(5 - spAng90.xcen) * Real.sin (fmod spAng90.ang 360 * Real.pi / 180) -
        (7 - spAng90.ycen) * Real.cos (fmod spAng90.ang 360 * Real.pi / 180)) /
        spAng90.axrat) :=
  profit_init_sersic_rotation 0 spAng90 (initOr 0 spAng90) _ _ _ 5 7 rfl rfl rfl rfl
    (by norm_num [spAng90, spFull])

/-- C3 counterexample: at `ang = 90` initialization succeeds and stores
`_sin_ang = -1`, while `sin(theta) = sin(pi / 2) = 1`, so `_sin_ang`
does not equal `sin(theta)` as the claim states. -/
theorem profit_init_sersic_sin_ang_cex :
    exceptOk (profit_init_sersic 0 spAng90) = true ∧
    (initOr 0 spAng90).sin_ang = -1 ∧
    Real.sin (fmod spAng90.ang 360 * Real.pi / 180) = 1 := by
  have hfm : fmod (90 : ℝ) 360 = 90 := by
    rw [fmod, ctrunc, if_pos (by norm_num : (0 : ℝ) ≤ 90 / 360)]
    rw [show ⌊(90 : ℝ) / 360⌋ = 0 from by
      rw [Int.floor_eq_zero_iff]
      constructor <;> norm_num]
    norm_num
  have hang : fmod spAng90.ang 360 * Real.pi / 180 = Real.pi / 2 := by
    rw [show spAng90.ang = (90 : ℝ) from rfl, hfm]
    ring
  refine ⟨rfl, ?_, ?_⟩
  · show Real.sqrt (1 - Real.cos (fmod spAng90.ang 360 * Real.pi / 180) *
        Real.cos (fmod spAng90.ang 360 * Real.pi / 180)) *
        (if fmod spAng90.ang 360 * Real.pi / 180 < Real.pi then -1 else 1) = -1
    rw [hang, Real.cos_pi_div_two, if_pos (by linarith [Real.pi_pos])]
    norm_num
  · rw [hang, Real.sin_pi_div_two]

/-- C4 (amended): a sub-cell of the adaptive integrator is recursively
subdivided (recursion level + 1) exactly when `resolution > 1`, the
recursion level is below `max_recursions` and the accuracy test of
`sersic_refine` fires — the test point being offset by one FULL sub-bin
(`ybin / axrat`), not one half-bin, further from the profile center along
the minor axis; otherwise its point estimate is accepted. -/
theorem sersic_sumpix_subdivision (sp : SersicProfile) (x0 x1 y0 y1 : ℝ)
    (recur_level : ℕ) :
    sersic_sumpix sp x0 x1 y0 y1 recur_level =
      (∑ i ∈ Finset.range sp.resolution, ∑ j ∈ Finset.range sp.resolution,
        if (1 < sp.resolution ∧ recur_level < sp.max_recursions) ∧
            sersic_refine sp
              (sersic_translate_rotate sp
                (subcellCenter x0 ((x1 - x0) / sp.resolution) i)
                (subcellCenter y0 ((y1 - y0) / sp.resolution) j)).1
              (sersic_translate_rotate sp
                (subcellCenter x0 ((x1 - x0) / sp.resolution) i)
                (subcellCenter y0 ((y1 - y0) / sp.resolution) j)).2
              ((y1 - y0) / sp.resolution) then
          sersic_sumpix sp
            (subcellCenter x0 ((x1 - x0) / sp.resolution) i - (x1 - x0) / sp.resolution / 2)
            (subcellCenter x0 ((x1 - x0) / sp.resolution) i + (x1 - x0) / sp.resolution / 2)
            (subcellCenter y0 ((y1 - y0) / sp.resolution) j - (y1 - y0) / sp.resolution / 2)
            (subcellCenter y0 ((y1 - y0) / sp.resolution) j + (y1 - y0) / sp.resolution / 2)
            (recur_level + 1)
        else
          sersic_cellval sp (subcellCenter x0 ((x1 - x0) / sp.resolution) i)
            (subcellCenter y0 ((y1 - y0) / sp.resolution) j)) /
      ((sp.resolution : ℝ) * (sp.resolution : ℝ)) := by
  rw [sersic_sumpix.eq_def]
  congr 1
  refine Finset.sum_congr rfl fun i _ => Finset.sum_congr rfl fun j _ => ?_
  rw [dite_eq_ite, ← ite_and]

/-- C4 counterexample: at the concrete profile `spAcc` (`bn = log 2`,
`acc = 0.5`, unit `re`, `nser`, `axrat`), sub-cell center `(0, 0)` and
sub-bin `ybin = 2`, the source's accuracy test (full-bin offset) fires
while the claim's half-bin-offset test does not, so the claimed
subdivision condition differs from the code's. -/
theorem sersic_sumpix_testpoint_cex :
    sersic_refine spAcc 0 0 2 ∧ ¬sersic_refine_claim spAcc 0 0 2 := by
  have hval : ∀ t : ℝ, 0 ≤ t →
      sersic_for_xy_r spAcc 0 t 0 false = Real.exp (-Real.log 2 * (t - 1)) := by
    intro t ht
    have hbox : spAcc.box = 0 := rfl
    have hb : spAcc.bn = Real.log 2 := rfl
    have hre : spAcc.re = 1 := rfl
    have hns : spAcc.nser = 1 := rfl
    simp only [sersic_for_xy_r, sersic_radius, hbox, hb, hre, hns]
    rw [if_neg (by norm_num), if_neg (by simp),
      show (0 : ℝ) * 0 + t * t = t * t from by ring, Real.sqrt_mul_self ht]
    norm_num [Real.rpow_one]
  have h2 : sersic_for_xy_r spAcc 0 2 0 false = 1 / 2 := by
    rw [hval 2 (by norm_num)]
    norm_num [Real.exp_neg, Real.exp_log]
  have h1 : sersic_for_xy_r spAcc 0 1 0 false = 1 := by
    rw [hval 1 (by norm_num)]
    norm_num
  have h0 : sersic_for_xy_r spAcc 0 0 0 false = 2 := by
    rw [hval 0 le_rfl]
    norm_num [Real.exp_log]
  have hax : spAcc.axrat = 1 := rfl
  have hacc : spAcc.acc = 0.5 := rfl
  constructor
  · unfold sersic_refine
    rw [show |(0 : ℝ)| + |2 / spAcc.axrat| = 2 from by rw [hax]; norm_num,
      h2, h0, hacc]
    rw [abs_of_nonpos (by norm_num)]
    norm_num
  · unfold sersic_refine_claim
    rw [show |(0 : ℝ)| + |2 / spAcc.axrat| / 2 = 1 from by rw [hax]; norm_num,
      h1, h0, hacc]
    rw [abs_of_nonpos (by norm_num)]
    norm_num

/-- C5: for any starting recursion level the adaptive integrator
terminates with recursion depth bounded by `max_recursions`: it equals
the explicitly fuel-bounded integrator run with fuel
`max_recursions - recur_level`. -/
theorem sersic_sumpix_depth_bounded (sp : SersicProfile) (x0 x1 y0 y1 : ℝ)
    (recur_level : ℕ) (hres : 1 ≤ sp.resolution) :
    sersic_sumpix sp x0 x1 y0 y1 recur_level =
      sersic_sumpix_depth sp (sp.max_recursions - recur_level) x0 x1 y0 y1 recur_level := by
  generalize hn : sp.max_recursions - recur_level = n
  revert hn
  induction n generalizing x0 x1 y0 y1 recur_level with
  | zero =>
    intro hn
    rw [sersic_sumpix.eq_def]
    simp only [sersic_sumpix_depth]
    congr 1
    refine Finset.sum_congr rfl fun i _ => Finset.sum_congr rfl fun j _ => ?_
    rw [dif_neg fun hc => by omega]
  | succ n ih =>
    intro hn
    rw [sersic_sumpix.eq_def]
    simp only [sersic_sumpix_depth]
    congr 1
    refine Finset.sum_congr rfl fun i _ => Finset.sum_congr rfl fun j _ => ?_
    by_cases hg : 1 < sp.resolution ∧ recur_level < sp.max_recursions
    · rw [dif_pos hg, if_pos hg]
      split_ifs with hr
      · exact ih _ _ _ _ _ (by omega)
      · rfl
    · rw [dif_neg hg, if_neg hg]

/-- Witness for C5 at the default profile over the unit pixel. -/
theorem sersic_sumpix_depth_bounded_witness :
    sersic_sumpix spFull 0 1 0 1 0 =
      sersic_sumpix_depth spFull (spFull.max_recursions - 0) 0 1 0 1 0 :=
  sersic_sumpix_depth_bounded spFull 0 1 0 1 0
    (by norm_num [spFull, profit_create_sersic])

theorem sersic_for_xy_r_pos (sp : SersicProfile) (x y r : ℝ) (b : Bool) :
    0 < sersic_for_xy_r sp x y r b := by
  unfold sersic_for_xy_r
  exact Real.exp_pos _

theorem sersic_cellval_pos (sp : SersicProfile) (x y : ℝ) :
    0 < sersic_cellval sp x y := by
  unfold sersic_cellval
  exact sersic_for_xy_r_pos sp _ _ 0 false

/-- C6: `profit_make_sersic` evaluates the intensity exactly once at the
pixel center (scaled by bin area and `_ie`) whenever `rough` is set, or
`nser < 0.5`, or the pixel-center radius over `re` exceeds `re_switch`;
otherwise it integrates the pixel by adaptive subsampling. -/
theorem profit_make_sersic_fast_path (sp : SersicProfile) (m : ProfitModel) (i j : ℕ) :
    (sp.rough = true ∨ sp.nser < 0.5 ∨
        Real.sqrt ((sersic_translate_rotate sp ((2 * (i : ℝ) + 1) * (m.xbin / 2))
            ((2 * (j : ℝ) + 1) * (m.ybin / 2))).1 *
          (sersic_translate_rotate sp ((2 * (i : ℝ) + 1) * (m.xbin / 2))
            ((2 * (j : ℝ) + 1) * (m.ybin / 2))).1 +
          (sersic_translate_rotate sp ((2 * (i : ℝ) + 1) * (m.xbin / 2))
            ((2 * (j : ℝ) + 1) * (m.ybin / 2))).2 *
          (sersic_translate_rotate sp ((2 * (i : ℝ) + 1) * (m.xbin / 2))
            ((2 * (j : ℝ) + 1) * (m.ybin / 2))).2) / sp.re > sp.re_switch →
      profit_make_sersic sp m i j = m.xbin * m.ybin * sp.ie *
        sersic_for_xy_r sp
          (sersic_translate_rotate sp ((2 * (i : ℝ) + 1) * (m.xbin / 2))
            ((2 * (j : ℝ) + 1) * (m.ybin / 2))).1
          (sersic_translate_rotate sp ((2 * (i : ℝ) + 1) * (m.xbin / 2))
            ((2 * (j : ℝ) + 1) * (m.ybin / 2))).2
          (Real.sqrt ((sersic_translate_rotate sp ((2 * (i : ℝ) + 1) * (m.xbin / 2))
              ((2 * (j : ℝ) + 1) * (m.ybin / 2))).1 *
            (sersic_translate_rotate sp ((2 * (i : ℝ) + 1) * (m.xbin / 2))
              ((2 * (j : ℝ) + 1) * (m.ybin / 2))).1 +
            (sersic_translate_rotate sp ((2 * (i : ℝ) + 1) * (m.xbin / 2))
              ((2 * (j : ℝ) + 1) * (m.ybin / 2))).2 *
            (sersic_translate_rotate sp ((2 * (i : ℝ) + 1) * (m.xbin / 2))
              ((2 * (j : ℝ) + 1) * (m.ybin / 2))).2)) true) ∧
    (¬(sp.rough = true ∨ sp.nser < 0.5 ∨
        Real.sqrt ((sersic_translate_rotate sp ((2 * (i : ℝ) + 1) * (m.xbin / 2))
            ((2 * (j : ℝ) + 1) * (m.ybin / 2))).1 *
          (sersic_translate_rotate sp ((2 * (i : ℝ) + 1) * (m.xbin / 2))
            ((2 * (j : ℝ) + 1) * (m.ybin / 2))).1 +
          (sersic_translate_rotate sp ((2 * (i : ℝ) + 1) * (m.xbin / 2))
            ((2 * (j : ℝ) + 1) * (m.ybin / 2))).2 *
          (sersic_translate_rotate sp ((2 * (i : ℝ) + 1) * (m.xbin / 2))
            ((2 * (j : ℝ) + 1) * (m.ybin / 2))).2) / sp.re > sp.re_switch) →
      profit_make_sersic sp m i j = m.xbin * m.ybin * sp.ie *
        sersic_sumpix sp
          ((2 * (i : ℝ) + 1) * (m.xbin / 2) - m.xbin / 2)
          ((2 * (i : ℝ) + 1) * (m.xbin / 2) + m.xbin / 2)
          ((2 * (j : ℝ) + 1) * (m.ybin / 2) - m.ybin / 2)
          ((2 * (j : ℝ) + 1) * (m.ybin / 2) + m.ybin / 2) 0) := by
  constructor
  · intro hcond
    unfold profit_make_sersic profit_make_sersic_pixel_val
    rw [if_pos hcond]
  · intro hcond
    unfold profit_make_sersic profit_make_sersic_pixel_val
    rw [if_neg hcond]

/-- Witness for C6: the rough-mode profile takes the single-evaluation
fast path at pixel (0, 0). -/
theorem profit_make_sersic_fast_path_witness :
    profit_make_sersic spRough m3 0 0 = m3.xbin * m3.ybin * spRough.ie *
      sersic_for_xy_r spRough
        (sersic_translate_rotate spRough ((2 * ((0 : ℕ) : ℝ) + 1) * (m3.xbin / 2))
          ((2 * ((0 : ℕ) : ℝ) + 1) * (m3.ybin / 2))).1
        (sersic_translate_rotate spRough ((2 * ((0 : ℕ) : ℝ) + 1) * (m3.xbin / 2))
          ((2 * ((0 : ℕ) : ℝ) + 1) * (m3.ybin / 2))).2
        (Real.sqrt ((sersic_translate_rotate spRough ((2 * ((0 : ℕ) : ℝ) + 1) * (m3.xbin / 2))
            ((2 * ((0 : ℕ) : ℝ) + 1) * (m3.ybin / 2))).1 *
          (sersic_translate_rotate spRough ((2 * ((0 : ℕ) : ℝ) + 1) * (m3.xbin / 2))
            ((2 * ((0 : ℕ) : ℝ) + 1) * (m3.ybin / 2))).1 +
          (sersic_translate_rotate spRough ((2 * ((0 : ℕ) : ℝ) + 1) * (m3.xbin / 2))
            ((2 * ((0 : ℕ) : ℝ) + 1) * (m3.ybin / 2))).2 *
          (sersic_translate_rotate spRough ((2 * ((0 : ℕ) : ℝ) + 1) * (m3.xbin / 2))
            ((2 * ((0 : ℕ) : ℝ) + 1) * (m3.ybin / 2))).2)) true :=
  (profit_make_sersic_fast_path spRough m3 0 0).1 (Or.inl rfl)

/-- C10: with `resolution >= 1` the adaptive integrator returns a
strictly positive value (every sub-cell sample is an exponential), the
pixel value before scaling is strictly positive, and every pixel written
by the evaluation loop is that positive value scaled by
`bin_area * _ie`. -/
theorem sersic_sumpix_pos (sp : SersicProfile) (m : ProfitModel) (x0 x1 y0 y1 : ℝ)
    (recur_level i j : ℕ) (hres : 1 ≤ sp.resolution) :
    0 < sersic_sumpix sp x0 x1 y0 y1 recur_level ∧
    0 < profit_make_sersic_pixel_val sp m i j ∧
    profit_make_sersic sp m i j =
      m.xbin * m.ybin * sp.ie * profit_make_sersic_pixel_val sp m i j := by
  have hrpos : (0 : ℝ) < (sp.resolution : ℝ) := by
    exact_mod_cast Nat.lt_of_lt_of_le Nat.zero_lt_one hres
  have hne : (Finset.range sp.resolution).Nonempty :=
    Finset.nonempty_range_iff.mpr (by omega)
  have key : ∀ n x0 x1 y0 y1 lvl, sp.max_recursions - lvl = n →
      0 < sersic_sumpix sp x0 x1 y0 y1 lvl := by
    intro n
    induction n with
    | zero =>
      intro x0 x1 y0 y1 lvl hn
      rw [sersic_sumpix.eq_def]
      refine div_pos ?_ (mul_pos hrpos hrpos)
      refine Finset.sum_pos (fun a _ => Finset.sum_pos (fun c _ => ?_) hne) hne
      rw [dif_neg fun hc => by omega]
      exact sersic_cellval_pos sp _ _
    | succ n ih =>
      intro x0 x1 y0 y1 lvl hn
      rw [sersic_sumpix.eq_def]
      refine div_pos ?_ (mul_pos hrpos hrpos)
      refine Finset.sum_pos (fun a _ => Finset.sum_pos (fun c _ => ?_) hne) hne
      by_cases hg : 1 < sp.resolution ∧ lvl < sp.max_recursions
      · rw [dif_pos hg]
        split_ifs with hr
        · exact ih _ _ _ _ _ (by omega)
        · exact sersic_cellval_pos sp _ _
      · rw [dif_neg hg]
        exact sersic_cellval_pos sp _ _
  refine ⟨key _ _ _ _ _ _ rfl, ?_, rfl⟩
  unfold profit_make_sersic_pixel_val
  split_ifs with hc
  · exact sersic_for_xy_r_pos sp _ _ _ true
  · exact key _ _ _ _ _ _ rfl

/-- Witness for C10 at the default profile, a concrete model, pixel and
rectangle. -/
theorem sersic_sumpix_pos_witness :
    0 < sersic_sumpix spFull 0 1 0 1 0 ∧
    0 < profit_make_sersic_pixel_val spFull m3 0 0 ∧
    profit_make_sersic spFull m3 0 0 =
      m3.xbin * m3.ybin * spFull.ie * profit_make_sersic_pixel_val spFull m3 0 0 :=
  sersic_sumpix_pos spFull m3 0 1 0 1 0 0 0
    (by norm_num [spFull, profit_create_sersic])

/-- C7: a profile whose initialization fails is dropped with exactly one
extra warning and the rendered image is pixel-wise the image of the
remaining profiles alone. -/
theorem model_evaluate_drops_invalid (m : ProfitModel) (pre post : List SersicProfile)
    (bad : SersicProfile) (e : String) (i j : ℕ)
    (hbad : profit_init_sersic m.magzero bad = .error e) :
    (model_evaluate m (pre ++ bad :: post)).1 i j =
      (model_evaluate m (pre ++ post)).1 i j ∧
    (model_evaluate m (pre ++ bad :: post)).2 =
      (model_evaluate m (pre ++ post)).2 + 1 := by
  constructor
  · simp [model_evaluate, List.filterMap_append, List.filterMap_cons, hbad,
      Except.toOption]
  · simp [model_evaluate, List.filter_append, List.filter_cons, hbad, exceptOk]
    omega

/-- Witness for C7: the default profile (missing special functions) next
to a valid profile, over a concrete model and pixel. -/
theorem model_evaluate_drops_invalid_witness :
    (model_evaluate m3 ([] ++ profit_create_sersic :: [spFull])).1 0 0 =
      (model_evaluate m3 ([] ++ [spFull])).1 0 0 ∧
    (model_evaluate m3 ([] ++ profit_create_sersic :: [spFull])).2 =
      (model_evaluate m3 ([] ++ [spFull])).2 + 1 :=
  model_evaluate_drops_invalid m3 [] [spFull] profit_create_sersic _ 0 0 rfl

/-- C8 (amended): `profit_init_sersic` validates only the presence of the
three special-function dependencies — success is exactly their presence;
the axis ratio is not validated at all. -/
theorem profit_init_sersic_ok_iff (magzero : ℝ) (p : SersicProfile) :
    exceptOk (profit_init_sersic magzero p) =
      (p.qgamma.isSome && p.gammafn.isSome && p.beta.isSome) := by
  rcases hq : p.qgamma with _ | q <;> rcases hg : p.gammafn with _ | g <;>
    rcases hb : p.beta with _ | b <;>
      simp [profit_init_sersic, hq, hg, hb, exceptOk]

/-- C8 counterexample: with `axrat = 0` (and the special functions
present) initialization succeeds instead of raising an invalid-parameter
condition. -/
theorem profit_init_sersic_axrat_zero_cex :
    spAxratZero.axrat = 0 ∧
    profit_init_sersic 0 spAxratZero = .ok (initOr 0 spAxratZero) :=
  ⟨rfl, rfl⟩

/-- C9: a missing mandatory width or height item and a present mask whose
dimensions differ from the image each make `pyprofit_make_model` fail
with the corresponding configuration error before any profile
evaluation; a present zero width or height also makes it fail with a
configuration error, and no image is returned in any of these cases. -/
theorem pyprofit_make_model_config_errors (d : PyModelDict) (w h : ℤ)
    (ps : List SersicProfile) (mw mh : ℕ) :
    (d.width = none → pyprofit_make_model d = .error "Missing mandatory width item") ∧
    (d.width = some w → d.height = none →
      pyprofit_make_model d = .error "Missing mandatory height item") ∧
    (d.width = some w → d.height = some h → d.profiles = some ps →
      read_boolean_matrix d.calcmask = some (mw, mh) →
      ((mw : ℤ) ≠ w ∨ (mh : ℤ) ≠ h) →
      pyprofit_make_model d = .error "calcmask must have same dimensions of image") ∧
    (d.width = some w → d.height = some h → (w = 0 ∨ h = 0) →
      exceptOk (pyprofit_make_model d) = false) := by
  refine ⟨fun h1 => ?_, fun h1 h2 => ?_, fun h1 h2 h3 h4 h5 => ?_, fun h1 h2 h3 => ?_⟩
  · simp [pyprofit_make_model, h1]
  · simp [pyprofit_make_model, h1, h2]
  · simp only [pyprofit_make_model, h1, h2, h3, h4]
    rw [if_pos h5]
  · rcases hps : d.profiles with _ | ps'
    · simp [pyprofit_make_model, h1, h2, hps, exceptOk]
    · rcases hm : read_boolean_matrix d.calcmask with _ | ⟨mw', mh'⟩
      · simp only [pyprofit_make_model, h1, h2, hps, hm]
        unfold model_evaluate_checked
        rw [if_pos h3]
        rfl
      · simp only [pyprofit_make_model, h1, h2, hps, hm]
        split_ifs with hmask
        · rfl
        · unfold model_evaluate_checked
          rw [if_pos h3]
          rfl

/-- Witness for C9: a dictionary with no width item fails with the
missing-width configuration error. -/
theorem pyprofit_make_model_config_errors_witness :
    pyprofit_make_model
      { width := none, height := none, profiles := none, calcmask := none,
        scale_x := none, scale_y := none, magzero := none } =
      .error "Missing mandatory width item" :=
  (pyprofit_make_model_config_errors
    { width := none, height := none, profiles := none, calcmask := none,
      scale_x := none, scale_y := none, magzero := none } 0 0 [] 0 0).1 rfl
